import Mathlib

/-!
Shallow embedding of `src/lib/domain.js` (node-mogile `Domain` class).

JavaScript values that matter for the argument-normalization logic are
modelled by `JSVal` together with JS truthiness. Tracker responses are
key-value mappings; the code only reads one count field and a family of
numbered fields, so a response is modelled as the count field plus a
function from index to the (possibly absent) numbered field.

The two streaming entry points, `getFile` and `storeFile`, are modelled as
event-driven state machines: each registered handler in the source becomes
one case of a step function, and a run processes a list of externally
generated events in order. `process.nextTick` re-checks are modelled by a
tick function applied between events.
-/

/-- JavaScript values relevant to the argument handling in `domain.js`:
`undefined`, `null`, numbers, strings, and functions (identified by a tag). -/
inductive JSVal where
  | undef
  | jsNull
  | num (n : Int)
  | str (s : String)
  | fn (id : Nat)
deriving DecidableEq, Repr

/-- JavaScript truthiness for `JSVal`: `undefined`, `null`, `0` and the
empty string are falsy; functions are truthy. -/
def truthy : JSVal → Bool
  | .undef => false
  | .jsNull => false
  | .num n => n != 0
  | .str s => s != ""
  | .fn _ => true

/- ------------------------------------------------------------------
getPaths (domain.js lines 40-59)
------------------------------------------------------------------ -/

/-- The argument mapping built by `Domain.prototype.getPaths`:
`{ key: key, noverify: ((noverify) ? '1' : '0') }`. The second component is
the `noverify` field. -/
def getPathsArgs (key : String) (noverify : JSVal) : String × String :=
  (key, if truthy noverify then "1" else "0")

/-- The `getPaths` call made by `Domain.prototype.getFile` (line 126):
`this.getPaths(key, 0, ...)` passes the number `0` as the noverify flag. -/
def getFileGetPathsCall (key : String) : String × String :=
  getPathsArgs key (.num 0)

/-- A tracker response as read by the numbered-field loops: the count field
(for example `response.paths`), and the numbered fields
(`response.path1`, `response.path2`, ...) as a function from the index to
the field value, `none` meaning the field is absent (`undefined`). -/
structure TrackerResp where
  countField : Option String
  numbered : Nat → Option String

/-- A decimal digit character, by its ASCII code. -/
def digit? (c : Char) : Option Nat :=
  if 48 ≤ c.toNat ∧ c.toNat ≤ 57 then some (c.toNat - 48) else none

/-- Parse a trailing run of decimal digits onto an accumulator; any
non-digit character makes the whole string non-numeric. -/
def parseDigits : List Char → Nat → Option Nat
  | [], acc => some acc
  | c :: cs, acc =>
    match digit? c with
    | some d => parseDigits cs (acc * 10 + d)
    | none => none

/-- JS numeric reading of a count string: a non-empty all-digit string is
its decimal value; anything else is treated as `NaN`, modelled `none`
(every comparison against `NaN` is false, so the numbered-field loops do
not run, exactly as a `none` count makes them produce the empty list). -/
def jsNum (s : String) : Option Nat :=
  match s.data with
  | [] => none
  | c :: cs =>
    match digit? c with
    | some d => parseDigits cs d
    | none => none

/-- JS numeric coercion of a response field as used by the comparison
`i <= response.paths`: an absent field or a non-numeric string coerces to
`NaN`, for which every comparison is false, modelled as `none`. -/
def jsNumField : Option String → Option Nat
  | none => none
  | some s => jsNum s

/-- The response-handling loop of `Domain.prototype.getPaths` (lines 51-54):
`for (i = 1; i <= response.paths; i++) paths.push(response[path i])`.
Entries are `Option String` because a missing numbered field pushes
`undefined` onto the array. -/
def getPathsHandle (resp : TrackerResp) : List (Option String) :=
  match jsNumField resp.countField with
  | none => []
  | some n => (List.range n).map (fun i => resp.numbered (i + 1))

/-- Outcome delivered to the `getPaths` callback. -/
inductive PathsResult where
  | err
  | ok (paths : List (Option String))
deriving DecidableEq, Repr

/-- The `getPaths` send callback (lines 47-56): a send error is propagated
as `callback(err)`; otherwise the reconstructed path array is delivered as
`callback(null, paths)` unconditionally. -/
def getPathsCallback : Except Unit TrackerResp → PathsResult
  | .error _ => .err
  | .ok resp => .ok (getPathsHandle resp)

/-- What `Domain.prototype.getFile` does with the resolved paths
(lines 126-137): a resolution error is propagated; otherwise it proceeds to
create the write stream and use `paths[0]`, with no emptiness check —
`first = none` means `paths[0]` is `undefined`. -/
inductive GetFileStart where
  | propagateErr
  | proceed (first : Option String)
deriving DecidableEq, Repr

/-- Dispatch of `getFile` on the `getPaths` outcome. `paths[0]` is
`undefined` (`none`) both when the array is empty and when the first entry
itself is `undefined`, hence the `Option.join`. -/
def getFileOnPaths : PathsResult → GetFileStart
  | .err => .propagateErr
  | .ok paths => .proceed paths.head?.join

/- ------------------------------------------------------------------
del (domain.js lines 69-86)
------------------------------------------------------------------ -/

/-- The `noop` function bound at the top of `domain.js`. -/
def noopVal : JSVal := .fn 0

/-- Argument normalization of `Domain.prototype.del` (lines 71-79): when
the second argument is a function it becomes the callback and the storage
class becomes `null`; then `callback = callback || noop`; the request
arguments are `{ key: key, class: storage_class }`. Returns the request
argument pair together with the resolved callback. -/
def delDispatch (key : String) (storage_class callback : JSVal) :
    (String × JSVal) × JSVal :=
  let sc_cb : JSVal × JSVal :=
    match storage_class with
    | .fn f => (.jsNull, .fn f)
    | v => (v, callback)
  ((key, sc_cb.1), if truthy sc_cb.2 then sc_cb.2 else noopVal)

/- ------------------------------------------------------------------
get_keys (domain.js lines 260-283)
------------------------------------------------------------------ -/

/-- Argument construction of `Domain.prototype.get_keys` (lines 262-272):
`lastKey = lastKey || 0`, `limit = limit || 100`, then
`{ prefix: prefix, after: lastKey, limit: limit }`. The result is the
triple (prefix, after, limit). -/
def get_keysArgs (pre : String) (lastKey limit : JSVal) :
    String × JSVal × JSVal :=
  (pre,
   if truthy lastKey then lastKey else .num 0,
   if truthy limit then limit else .num 100)

/- ------------------------------------------------------------------
getFile streaming (domain.js lines 119-182)
------------------------------------------------------------------ -/

/-- External events driving a `getFile` transfer, in the order the event
loop delivers them: a `data` chunk on the HTTP response (with the boolean
returned by `stream.write`), a `drain` event on the write stream, the
`end` event on the HTTP response, an `error` on the GET request, and an
`error` on the write stream. -/
inductive GEvent where
  | data (len : Nat) (drained : Bool)
  | drain
  | srcEnd
  | getError
  | sinkError
deriving DecidableEq, Repr

/-- One invocation of the `getFile` completion callback: either
`callback(null, bytes_written)` or `callback(err)`. -/
inductive GResult where
  | ok (bytes : Nat)
  | err
deriving DecidableEq, Repr

/-- State of one `getFile` transfer: the `bytes_written` and `paused`
variables of the source, whether the HTTP response has completed, whether a
`finished` re-check is scheduled via `process.nextTick`, whether
`stream.end()` has been called, the number of `res.resume()` calls, an
instrumentation flag recording whether `stream.end()` was ever invoked
while `paused` was set, and the list of callback invocations so far. -/
structure GState where
  bytes_written : Nat
  paused : Bool
  responseComplete : Bool
  finishPending : Bool
  sinkEnded : Bool
  resumes : Nat
  closedWhilePaused : Bool
  calls : List GResult
deriving DecidableEq, Repr

/-- The effect of calling `stream.end()`, recording whether the source was
paused at that moment. -/
def sinkEnd (s : GState) : GState :=
  { s with sinkEnded := true,
           closedWhilePaused := s.closedWhilePaused || s.paused }

/-- The `finished` closure inside the response `end` handler
(lines 154-161): while `paused` it re-schedules itself with
`process.nextTick`; otherwise it calls `stream.end()` and
`callback(null, bytes_written)`. -/
def finishedStep (s : GState) : GState :=
  if s.paused then
    { s with finishPending := true }
  else
    { sinkEnd s with
        calls := s.calls ++ [.ok s.bytes_written],
        finishPending := false }

/-- One handler invocation of `getFile`, one case per registered handler:
the response `data` handler (lines 145-152) adds the chunk length and
pauses the response when `stream.write` returned false; the stream `drain`
handler (lines 173-178) resumes the response (unless it already completed)
and clears `paused`; the response `end` handler (lines 153-163) marks the
response complete and runs `finished`; the GET `error` handler
(lines 165-168) calls `stream.end()` and `callback(err)`; the stream
`error` handler (lines 170-172) calls `callback(err)` only. -/
def gstep (s : GState) : GEvent → GState
  | .data len drained =>
      let s1 := { s with bytes_written := s.bytes_written + len }
      if drained then s1 else { s1 with paused := true }
  | .drain =>
      if s.paused then
        { s with paused := false,
                 resumes := if s.responseComplete then s.resumes
                            else s.resumes + 1 }
      else s
  | .srcEnd => finishedStep { s with responseComplete := true }
  | .getError => { sinkEnd s with calls := s.calls ++ [.err] }
  | .sinkError => { s with calls := s.calls ++ [.err] }

/-- The `process.nextTick` queue runs between event-loop callbacks: a
pending `finished` re-check is executed before the next event. -/
def gtick (s : GState) : GState :=
  if s.finishPending then finishedStep s else s

/-- Run a `getFile` transfer over a list of events. -/
def grun : GState → List GEvent → GState
  | s, [] => s
  | s, e :: es => grun (gtick (gstep s e)) es

/-- Initial transfer state (lines 122-124): zero bytes written, not
paused, no callbacks yet. -/
def ginit : GState :=
  { bytes_written := 0, paused := false, responseComplete := false,
    finishPending := false, sinkEnded := false, resumes := 0,
    closedWhilePaused := false, calls := [] }

/-- Total number of bytes delivered by the `data` events of a trace. -/
def sumData : List GEvent → Nat
  | [] => 0
  | .data len _ :: es => len + sumData es
  | _ :: es => sumData es

/-- Events that can occur during the pumping phase of a transfer: data
chunks and drain signals. -/
def isPump : GEvent → Bool
  | .data _ _ => true
  | .drain => true
  | _ => false

/- ------------------------------------------------------------------
storeFile (domain.js lines 193-248)
------------------------------------------------------------------ -/

/-- The fields of a `CREATE_OPEN` tracker response used by `storeFile`
(line 206): device id, file id, and storage path. -/
structure OpenResponse where
  devid : String
  fid : String
  path : String
deriving DecidableEq, Repr

/-- The argument mapping sent with `CREATE_CLOSE` (lines 232-238):
the original key and storage class plus the identifiers from the
`CREATE_OPEN` response. -/
structure CloseArgs where
  key : String
  cls : String
  devid : String
  fid : String
  path : String
deriving DecidableEq, Repr

/-- Construction of the `CREATE_CLOSE` arguments from the key, storage
class, and the `CREATE_OPEN` response, exactly as lines 232-238 build
them. -/
def createCloseArgs (key storage_class : String) (r : OpenResponse) :
    CloseArgs :=
  { key := key, cls := storage_class,
    devid := r.devid, fid := r.fid, path := r.path }

/-- External events during the PUT phase of `storeFile`: the read stream
`end` event, the storage node answering the PUT (for which the code
registers no handler), and an `error` on the PUT request. -/
inductive UEvent where
  | streamEnd
  | putAck
  | reqError
deriving DecidableEq, Repr

/-- Observable actions emitted by `storeFile` during the PUT phase:
finalizing the request body (`request.end()`) and sending the
`CREATE_CLOSE` command with its argument mapping. -/
inductive UAction where
  | endRequest
  | sendClose (args : CloseArgs)
deriving DecidableEq, Repr

/-- State of one `storeFile` run: whether the storage node has answered
the PUT (environment bookkeeping; the code never reads it), the ordered
actions emitted so far, and the number of `callback(err)` invocations from
the request error handler. -/
structure UState where
  ackSeen : Bool
  actions : List UAction
  errCalls : Nat
deriving DecidableEq, Repr

/-- One handler invocation of the PUT phase of `storeFile`: the read
stream `end` handler (lines 230-245) calls `request.end()` and immediately
sends `CREATE_CLOSE`; the storage node answering the PUT has no handler in
the code, so only the bookkeeping flag changes; the request `error`
handler (lines 224-226) calls `callback(err)`. -/
def ustep (key cls : String) (r : OpenResponse) (s : UState) :
    UEvent → UState
  | .streamEnd =>
      { s with actions :=
          s.actions ++ [.endRequest, .sendClose (createCloseArgs key cls r)] }
  | .putAck => { s with ackSeen := true }
  | .reqError => { s with errCalls := s.errCalls + 1 }

/-- Run the PUT phase of `storeFile` over a list of events. -/
def urun (key cls : String) (r : OpenResponse) : UState → List UEvent → UState
  | s, [] => s
  | s, e :: es => urun key cls r (ustep key cls r s e) es

/-- Initial PUT-phase state. -/
def uinit : UState := { ackSeen := false, actions := [], errCalls := 0 }

/-- The `CREATE_CLOSE` argument mappings among a list of actions, in
order. -/
def closeArgsSent : List UAction → List CloseArgs
  | [] => []
  | .sendClose a :: as => a :: closeArgsSent as
  | .endRequest :: as => closeArgsSent as

/-- Number of read-stream `end` events in a trace. -/
def countStreamEnd : List UEvent → Nat
  | [] => 0
  | .streamEnd :: es => countStreamEnd es + 1
  | _ :: es => countStreamEnd es

/- ------------------------------------------------------------------
Claim theorems: path resolution and one-shot calls
------------------------------------------------------------------ -/

/-- C5 (amended): for every download, getFile performs the initial path
resolution with the noverify flag set to the string zero — the call
`getPaths(key, 0, ...)` passes the falsy number 0, so the GET_PATHS request
carries noverify equal to "0" and the tracker does verify existence. -/
theorem getFile_sends_noverify_zero :
    ∀ key, getFileGetPathsCall key = (key, "0") := by
  intro key; rfl

/-- C5 counterexample: the claim says the GET_PATHS request of getFile
carries noverify equal to "1"; at the concrete key "mykey" the request
built by the code carries "0", not "1". -/
theorem getFile_noverify_counterexample :
    (getFileGetPathsCall "mykey").2 = "0" ∧
    (getFileGetPathsCall "mykey").2 ≠ "1" := by
  constructor
  · rfl
  · decide

/-- C9: when the second argument of del is a function, it becomes the
completion callback and the class field of the DELETE arguments is null;
del with a function second argument builds exactly the same request
arguments and callback as del with null class and that function third. -/
theorem del_function_second_argument :
    ∀ (key : String) (f : Nat) (cb : JSVal),
      delDispatch key (.fn f) cb = ((key, .jsNull), .fn f) ∧
      delDispatch key (.fn f) cb = delDispatch key .jsNull (.fn f) := by
  intro key f cb
  exact ⟨rfl, rfl⟩

/-- C10: get_keys substitutes 0 for a falsy lastKey (such as an omitted
argument) in the after field, and 100 for a falsy limit — including an
explicit limit of 0 — in the limit field of the list_keys arguments. -/
theorem get_keys_default_arguments :
    (∀ pre lastKey limit, truthy lastKey = false →
        (get_keysArgs pre lastKey limit).2.1 = .num 0) ∧
    (∀ pre lastKey limit, truthy limit = false →
        (get_keysArgs pre lastKey limit).2.2 = .num 100) ∧
    (∀ pre lastKey, (get_keysArgs pre lastKey (.num 0)).2.2 = .num 100) := by
  refine ⟨?_, ?_, ?_⟩
  · intro pre lastKey limit h
    simp [get_keysArgs, h]
  · intro pre lastKey limit h
    simp [get_keysArgs, h]
  · intro pre lastKey
    simp [get_keysArgs, truthy]

/-- C10 witness: concrete instances of the default substitutions. -/
theorem get_keys_default_arguments_witness :
    (get_keysArgs "doc" .undef (.str "5")).2.1 = .num 0 ∧
    (get_keysArgs "doc" (.str "k9") (.num 0)).2.2 = .num 100 :=
  ⟨get_keys_default_arguments.1 "doc" .undef (.str "5") (by decide),
   get_keys_default_arguments.2.1 "doc" (.str "k9") (.num 0) (by decide)⟩

/-- C4 (amended): a key that resolves to zero locations is delivered to
getFile as a successful empty path list, and getFile proceeds — it opens
the write stream and dereferences the missing first path (undefined) —
rather than failing with a NotFoundError, which does not exist in the
code. -/
theorem getPaths_zero_locations_empty_success :
    ∀ resp : TrackerResp, jsNumField resp.countField = some 0 →
      getPathsCallback (.ok resp) = .ok [] ∧
      getFileOnPaths (getPathsCallback (.ok resp)) = .proceed none := by
  intro resp h
  have hh : getPathsHandle resp = [] := by
    unfold getPathsHandle
    rw [h]
    simp
  constructor
  · simp [getPathsCallback, hh]
  · simp [getPathsCallback, getFileOnPaths, hh]

/-- A concrete tracker response announcing zero paths. -/
def emptyPathsResp : TrackerResp :=
  { countField := some "0", numbered := fun _ => none }

/-- C4 witness: the amended theorem applied to the concrete zero-path
response. -/
theorem getPaths_zero_locations_empty_success_witness :
    getPathsCallback (.ok emptyPathsResp) = .ok [] ∧
    getFileOnPaths (getPathsCallback (.ok emptyPathsResp)) = .proceed none :=
  getPaths_zero_locations_empty_success emptyPathsResp (by decide)

/-- C4 counterexample: on a response with zero locations the code does not
fail — the resolution is surfaced as a successful empty list and getFile
proceeds with an undefined first location, refuting the claim that such a
key yields a NotFoundError and never proceeds. -/
theorem getFile_zero_locations_counterexample :
    getPathsCallback (.ok emptyPathsResp) ≠ .err ∧
    getPathsCallback (.ok emptyPathsResp) = .ok [] ∧
    getFileOnPaths (getPathsCallback (.ok emptyPathsResp)) =
      .proceed none := by
  refine ⟨?_, ?_, ?_⟩ <;> decide

/-- C8 (amended): getPaths reconstructs exactly the numbered fields 1
through count, in order, whenever the count field coerces to a number n:
the result has length n and its i-th entry is the field numbered i+1. But
neither a numbering gap nor a malformed count is surfaced as a protocol
error: a gap contributes an undefined entry inside a successful result,
and a malformed (non-numeric) count yields a successful empty result. -/
theorem getPaths_numbered_reconstruction :
    (∀ (resp : TrackerResp) (n : Nat), jsNumField resp.countField = some n →
        (getPathsHandle resp).length = n ∧
        ∀ i, i < n →
          (getPathsHandle resp).get? i = some (resp.numbered (i + 1))) ∧
    (∀ resp : TrackerResp, jsNumField resp.countField = none →
        getPathsHandle resp = [] ∧ getPathsCallback (.ok resp) = .ok []) := by
  constructor
  · intro resp n h
    have hh : getPathsHandle resp =
        (List.range n).map (fun i => resp.numbered (i + 1)) := by
      unfold getPathsHandle
      rw [h]
    constructor
    · rw [hh]; simp
    · intro i hi
      rw [hh, List.get?_map, List.get?_range hi]
      rfl
  · intro resp h
    have hh : getPathsHandle resp = [] := by
      unfold getPathsHandle
      rw [h]
    exact ⟨hh, by simp [getPathsCallback, hh]⟩

/-- A concrete response with count 2 but a gap: path1 present, path2
absent. -/
def gapPathsResp : TrackerResp :=
  { countField := some "2",
    numbered := fun i => if i = 1 then some "u1" else none }

/-- A concrete response whose count field is not numeric. -/
def badCountResp : TrackerResp :=
  { countField := some "two", numbered := fun _ => some "u1" }

/-- C8 witness: the amended theorem applied to the gap response: the
reconstruction has length 2 and entry 0 is the field path1. -/
theorem getPaths_numbered_reconstruction_witness :
    (getPathsHandle gapPathsResp).length = 2 ∧
    (getPathsHandle gapPathsResp).get? 0 = some (some "u1") :=
  ⟨(getPaths_numbered_reconstruction.1 gapPathsResp 2 (by decide)).1,
   (getPaths_numbered_reconstruction.1 gapPathsResp 2 (by decide)).2 0
     (by decide)⟩

/-- C8 counterexample: a response with a gap in the numbering (count 2,
path2 missing) is returned as a success containing an undefined entry, and
a response with a malformed count is returned as a successful empty list —
neither is surfaced as a protocol error, refuting the claim. -/
theorem getPaths_gap_tolerated_counterexample :
    getPathsCallback (.ok gapPathsResp) = .ok [some "u1", none] ∧
    getPathsCallback (.ok badCountResp) = .ok [] := by
  constructor <;> decide

/- ------------------------------------------------------------------
Lemmas about the getFile event loop
------------------------------------------------------------------ -/

/-- The tick of a state with no pending finish is the identity. -/
theorem gtick_nofinish (s : GState) (h : s.finishPending = false) :
    gtick s = s := by
  unfold gtick
  simp [h]

/-- The finished closure never closes the sink while the source is
paused: it preserves the instrumentation flag. -/
theorem finishedStep_flag (s : GState) (h : s.closedWhilePaused = false) :
    (finishedStep s).closedWhilePaused = false := by
  unfold finishedStep sinkEnd
  by_cases hp : s.paused
  · simp [hp, h]
  · simp [hp, h]

/-- Ticks preserve the no-close-while-paused flag. -/
theorem gtick_flag (s : GState) (h : s.closedWhilePaused = false) :
    (gtick s).closedWhilePaused = false := by
  unfold gtick
  by_cases hf : s.finishPending
  · simp [hf, finishedStep_flag s h]
  · simp [hf, h]

/-- Every handler except the GET error handler preserves the
no-close-while-paused flag. -/
theorem gstep_flag (s : GState) (e : GEvent) (he : e ≠ .getError)
    (h : s.closedWhilePaused = false) :
    (gstep s e).closedWhilePaused = false := by
  cases e with
  | data len dr => cases dr <;> simp [gstep, h]
  | drain => by_cases hp : s.paused <;> simp [gstep, hp, h]
  | srcEnd => exact finishedStep_flag _ h
  | getError => exact absurd rfl he
  | sinkError => simp [gstep, h]

/-- Over any trace without a transport error, the sink is never closed
while the source is paused. -/
theorem grun_flag (tr : List GEvent) :
    ∀ s : GState, s.closedWhilePaused = false → GEvent.getError ∉ tr →
      (grun s tr).closedWhilePaused = false := by
  induction tr with
  | nil => intro s h _; exact h
  | cons e es ih =>
      intro s h hmem
      have he : e ≠ .getError := by
        intro hx; exact hmem (hx ▸ List.mem_cons_self e es)
      have hes : GEvent.getError ∉ es :=
        fun hx => hmem (List.mem_cons_of_mem e hx)
      exact ih _ (gtick_flag _ (gstep_flag s e he h)) hes

/-- The total of a trace splits off its head event. -/
theorem sumData_cons (e : GEvent) (es : List GEvent) :
    sumData (e :: es) = sumData [e] + sumData es := by
  cases e <;> simp [sumData]

/-- A pump event (data or drain) only moves bytes and the pause flag: it
leaves the finish flag, the callback list, the response-complete flag and
the sink state unchanged, and adds the chunk length to the byte count. -/
theorem gstep_pump_fields (s : GState) (e : GEvent) (hp : isPump e = true) :
    (gstep s e).finishPending = s.finishPending ∧
    (gstep s e).calls = s.calls ∧
    (gstep s e).responseComplete = s.responseComplete ∧
    (gstep s e).sinkEnded = s.sinkEnded ∧
    (gstep s e).bytes_written = s.bytes_written + sumData [e] := by
  cases e with
  | data len dr => cases dr <;> simp [gstep, sumData]
  | drain => by_cases hpa : s.paused <;> simp [gstep, hpa, sumData]
  | srcEnd => simp [isPump] at hp
  | getError => simp [isPump] at hp
  | sinkError => simp [isPump] at hp

/-- Running any number of pump events from a state with no pending finish
accumulates exactly the data lengths and touches nothing else that decides
completion. -/
theorem grun_pump (body : List GEvent) :
    ∀ s : GState, (∀ e ∈ body, isPump e = true) → s.finishPending = false →
      (grun s body).finishPending = false ∧
      (grun s body).calls = s.calls ∧
      (grun s body).responseComplete = s.responseComplete ∧
      (grun s body).sinkEnded = s.sinkEnded ∧
      (grun s body).bytes_written = s.bytes_written + sumData body := by
  induction body with
  | nil =>
      intro s _ hf
      exact ⟨hf, rfl, rfl, rfl, by simp [grun, sumData]⟩
  | cons e es ih =>
      intro s hb hf
      have hes : ∀ x ∈ es, isPump x = true :=
        fun x hx => hb x (List.mem_cons_of_mem e hx)
      obtain ⟨f1, f2, f3, f4, f5⟩ :=
        gstep_pump_fields s e (hb e (List.mem_cons_self e es))
      have hsf : (gstep s e).finishPending = false := f1.trans hf
      have grw : grun s (e :: es) = grun (gstep s e) es := by
        simp only [grun]
        rw [gtick_nofinish _ hsf]
      rw [grw]
      obtain ⟨g1, g2, g3, g4, g5⟩ := ih (gstep s e) hes hsf
      refine ⟨g1, g2.trans f2, g3.trans f3, g4.trans f4, ?_⟩
      have hsum := sumData_cons e es
      rw [g5, f5]
      omega

/-- Runs compose over concatenated traces. -/
theorem grun_append (xs ys : List GEvent) :
    ∀ s, grun s (xs ++ ys) = grun (grun s xs) ys := by
  induction xs with
  | nil => intro s; rfl
  | cons e es ih =>
      intro s
      simp only [List.cons_append, grun]
      exact ih _

/-- From any mid-transfer state with no callback yet, the response end
followed by one drain closes the sink and reports exactly the bytes
written so far, whether or not the source was paused at the end. -/
theorem grun_finish (s : GState) (hf : s.finishPending = false)
    (hc : s.calls = []) :
    (grun s [.srcEnd, .drain]).calls = [.ok s.bytes_written] ∧
    (grun s [.srcEnd, .drain]).sinkEnded = true := by
  obtain ⟨bw, p, rc, fp, se, rs, cwp, cs⟩ := s
  have hf2 : fp = false := hf
  have hc2 : cs = [] := hc
  subst hf2; subst hc2
  cases p <;> simp [grun, gstep, gtick, finishedStep, sinkEnd]

/-- From any mid-transfer state with no callback yet, a GET error closes
the sink and reports exactly one error callback carrying no byte count. -/
theorem grun_getError_end (s : GState) (hf : s.finishPending = false)
    (hc : s.calls = []) :
    (grun s [.getError]).calls = [.err] ∧
    (grun s [.getError]).sinkEnded = true := by
  obtain ⟨bw, p, rc, fp, se, rs, cwp, cs⟩ := s
  have hf2 : fp = false := hf
  have hc2 : cs = [] := hc
  subst hf2; subst hc2
  simp [grun, gstep, gtick, sinkEnd]

/- ------------------------------------------------------------------
Claim theorems: getFile streaming
------------------------------------------------------------------ -/

/-- C1 (amended): in getFile, when the HTTP source signals end-of-data
while the sink is suspended, closing the sink and reporting the byte count
is deferred — the end handler only schedules a re-check, and each re-check
completes exactly when the source is no longer paused; on every download
run without a transport error the sink is never closed while suspended.
(The original universal claim fails: the GET error handler closes the sink
unconditionally, even while suspended — see the counterexample.) -/
theorem getFile_end_deferred_while_suspended :
    (∀ s : GState, s.paused = true →
        (gstep s .srcEnd).sinkEnded = s.sinkEnded ∧
        (gstep s .srcEnd).calls = s.calls ∧
        (gstep s .srcEnd).finishPending = true) ∧
    (∀ s : GState, s.finishPending = true → s.paused = false →
        (gtick s).sinkEnded = true ∧
        (gtick s).calls = s.calls ++ [.ok s.bytes_written]) ∧
    (∀ tr : List GEvent, GEvent.getError ∉ tr →
        (grun ginit tr).closedWhilePaused = false) := by
  refine ⟨?_, ?_, ?_⟩
  · intro s h
    simp [gstep, finishedStep, h]
  · intro s hf hp
    simp [gtick, finishedStep, sinkEnd, hf, hp]
  · intro tr htr
    exact grun_flag tr ginit rfl htr

/-- C1 witness: a transfer whose end-of-data arrives while suspended, with
a later drain; the sink is never closed while suspended and the transfer
reports the two bytes written. -/
theorem getFile_end_deferred_while_suspended_witness :
    (grun ginit [.data 2 false, .srcEnd, .drain]).closedWhilePaused
        = false :=
  getFile_end_deferred_while_suspended.2.2
    [.data 2 false, .srcEnd, .drain] (by decide)

/-- C1 counterexample: a transport error arriving while the sink is
suspended (after a non-drained write) closes the sink while suspended —
the claim that the sink is never closed while suspended fails on this
download. -/
theorem getFile_closed_while_suspended_counterexample :
    (grun ginit [.data 5 false, .getError]).paused = true ∧
    (grun ginit [.data 5 false, .getError]).sinkEnded = true ∧
    (grun ginit [.data 5 false, .getError]).closedWhilePaused = true := by
  refine ⟨?_, ?_, ?_⟩ <;> decide

/-- C3: a write that does not complete synchronously pauses the source and
still counts the chunk; a drain while paused resumes the source
(incrementing the resume count when the response has not yet completed);
and over any interleaving of data chunks and drain cycles — any number of
saturate/drain rounds — the transfer completes with a single success
callback whose byte count is exactly the total of the received chunks,
independent of the number of cycles. -/
theorem getFile_backpressure_transparent :
    (∀ (s : GState) (len : Nat),
        (gstep s (.data len false)).paused = true ∧
        (gstep s (.data len false)).bytes_written
          = s.bytes_written + len) ∧
    (∀ s : GState, s.paused = true → s.responseComplete = false →
        (gstep s .drain).paused = false ∧
        (gstep s .drain).resumes = s.resumes + 1) ∧
    (∀ body : List GEvent, (∀ e ∈ body, isPump e = true) →
        (grun ginit (body ++ [.srcEnd, .drain])).calls
          = [.ok (sumData body)]) := by
  refine ⟨?_, ?_, ?_⟩
  · intro s len
    constructor <;> simp [gstep]
  · intro s hp hrc
    constructor <;> simp [gstep, hp, hrc]
  · intro body hb
    obtain ⟨h1, h2, h3, h4, h5⟩ := grun_pump body ginit hb rfl
    rw [grun_append]
    have hfin := grun_finish (grun ginit body) h1 (by rw [h2]; rfl)
    rw [hfin.1, h5]
    simp [ginit]

/-- C3 witness: two saturate/drain cycles, then end-of-data; the reported
count is the total of the two chunks. -/
theorem getFile_backpressure_transparent_witness :
    (grun ginit ([.data 3 false, .drain, .data 4 false, .drain]
        ++ [.srcEnd, .drain])).calls = [.ok 7] :=
  getFile_backpressure_transparent.2.2
    [.data 3 false, .drain, .data 4 false, .drain] (by decide)

/-- C6 (amended): a transport-level error aborts the transfer: the sink is
closed and the single callback reports the error with no byte count; the
success exit also closes the sink. But not every exit path releases the
resources: the sink-error exit only reports the error — the handler closes
neither the sink nor the network stream (see the counterexample). -/
theorem getFile_transport_error_aborts :
    ∀ body : List GEvent, (∀ e ∈ body, isPump e = true) →
      (grun ginit (body ++ [.getError])).calls = [.err] ∧
      (grun ginit (body ++ [.getError])).sinkEnded = true ∧
      (grun ginit (body ++ [.srcEnd, .drain])).sinkEnded = true := by
  intro body hb
  obtain ⟨h1, h2, h3, h4, h5⟩ := grun_pump body ginit hb rfl
  have hge := grun_getError_end (grun ginit body) h1 (by rw [h2]; rfl)
  have hfin := grun_finish (grun ginit body) h1 (by rw [h2]; rfl)
  refine ⟨?_, ?_, ?_⟩
  · rw [grun_append]; exact hge.1
  · rw [grun_append]; exact hge.2
  · rw [grun_append]; exact hfin.2

/-- C6 witness: a transfer aborted by a transport error after one
non-drained chunk: sole callback is the error, sink closed; and the
success path of the same prefix also closes the sink. -/
theorem getFile_transport_error_aborts_witness :
    (grun ginit ([.data 9 false] ++ [.getError])).calls = [.err] ∧
    (grun ginit ([.data 9 false] ++ [.getError])).sinkEnded = true ∧
    (grun ginit ([.data 9 false] ++ [.srcEnd, .drain])).sinkEnded
        = true :=
  getFile_transport_error_aborts [.data 9 false] (by decide)

/-- C6 counterexample: on the sink-error exit path the transfer reports
the error but does not close the sink (the handler only invokes the
callback), refuting the claim that the sink is released on every exit
path. -/
theorem getFile_sink_error_no_release_counterexample :
    (grun ginit [.sinkError]).calls = [.err] ∧
    (grun ginit [.sinkError]).sinkEnded = false := by
  constructor <;> decide

/- ------------------------------------------------------------------
Lemmas about the storeFile PUT phase
------------------------------------------------------------------ -/

/-- The close-argument extraction distributes over action
concatenation. -/
theorem closeArgsSent_append (xs ys : List UAction) :
    closeArgsSent (xs ++ ys) = closeArgsSent xs ++ closeArgsSent ys := by
  induction xs with
  | nil => rfl
  | cons a as ih => cases a <;> simp [closeArgsSent, ih]

/-- Each read-stream end event contributes exactly one CREATE_CLOSE send,
always with the same argument mapping; no other event sends one. -/
theorem urun_closeArgs (key cls : String) (r : OpenResponse)
    (tr : List UEvent) :
    ∀ s : UState,
      closeArgsSent (urun key cls r s tr).actions =
        closeArgsSent s.actions ++
          List.replicate (countStreamEnd tr) (createCloseArgs key cls r) := by
  induction tr with
  | nil => intro s; simp [urun, countStreamEnd]
  | cons e es ih =>
      intro s
      cases e with
      | streamEnd =>
          simp only [urun]
          rw [ih]
          simp [ustep, closeArgsSent_append, closeArgsSent, countStreamEnd,
                List.replicate_succ, List.append_assoc]
      | putAck =>
          simp only [urun]
          rw [ih]
          simp [ustep, countStreamEnd]
      | reqError =>
          simp only [urun]
          rw [ih]
          simp [ustep, countStreamEnd]

/-- Traces without a read-stream end event contain no end events to
count. -/
theorem countStreamEnd_zero (tr : List UEvent)
    (h : UEvent.streamEnd ∉ tr) : countStreamEnd tr = 0 := by
  induction tr with
  | nil => rfl
  | cons e es ih =>
      have he : e ≠ .streamEnd := by
        intro hx; exact h (hx ▸ List.mem_cons_self e es)
      have hes : UEvent.streamEnd ∉ es :=
        fun hx => h (List.mem_cons_of_mem e hx)
      cases e with
      | streamEnd => exact absurd rfl he
      | putAck => simp [countStreamEnd, ih hes]
      | reqError => simp [countStreamEnd, ih hes]

/- ------------------------------------------------------------------
Claim theorems: storeFile
------------------------------------------------------------------ -/

/-- C2 (amended): on source exhaustion storeFile finalizes the request
body and sends CREATE_CLOSE immediately afterwards, in the same handler,
regardless of whether the storage node has acknowledged the PUT (the code
registers no handler for the PUT response at all); and no close is sent
before the source is exhausted. The original ordering claim — close only
after the storage node acknowledges — fails: see the counterexample, a
complete run in which close is sent although no acknowledgement ever
arrives. -/
theorem storeFile_close_on_exhaustion_without_ack :
    (∀ (key cls : String) (r : OpenResponse) (s : UState),
        (ustep key cls r s .streamEnd).actions =
          s.actions ++
            [.endRequest, .sendClose (createCloseArgs key cls r)] ∧
        (ustep key cls r s .streamEnd).ackSeen = s.ackSeen) ∧
    (∀ (key cls : String) (r : OpenResponse) (tr : List UEvent),
        UEvent.streamEnd ∉ tr →
        closeArgsSent (urun key cls r uinit tr).actions = []) := by
  constructor
  · intro key cls r s
    exact ⟨rfl, rfl⟩
  · intro key cls r tr htr
    rw [urun_closeArgs key cls r tr uinit, countStreamEnd_zero tr htr]
    simp [uinit, closeArgsSent]

/-- C2 witness: the amended theorem at a concrete open response: the end
handler emits finalize-then-close, and a trace with no stream end sends no
close. -/
theorem storeFile_close_on_exhaustion_without_ack_witness :
    (ustep "k" "c" ⟨"95", "504917521", "devpath"⟩ uinit .streamEnd).actions
        = [.endRequest,
           .sendClose (createCloseArgs "k" "c"
             ⟨"95", "504917521", "devpath"⟩)] ∧
    closeArgsSent (urun "k" "c" ⟨"95", "504917521", "devpath"⟩ uinit
        [.putAck, .reqError]).actions = [] :=
  ⟨(storeFile_close_on_exhaustion_without_ack.1 "k" "c"
      ⟨"95", "504917521", "devpath"⟩ uinit).1,
   storeFile_close_on_exhaustion_without_ack.2 "k" "c"
      ⟨"95", "504917521", "devpath"⟩ [.putAck, .reqError] (by decide)⟩

/-- C2 counterexample: a run consisting only of the read-stream end event:
CREATE_CLOSE is sent although the storage node never acknowledged the PUT
(ackSeen is false at every point of the run), refuting the claim that no
close is issued before the acknowledgement. -/
theorem storeFile_close_before_ack_counterexample :
    (urun "k" "c" ⟨"95", "504917521", "fid-path"⟩ uinit
        [.streamEnd]).actions =
      [.endRequest, .sendClose ⟨"k", "c", "95", "504917521", "fid-path"⟩] ∧
    (urun "k" "c" ⟨"95", "504917521", "fid-path"⟩ uinit
        [.streamEnd]).ackSeen = false := by
  constructor <;> decide

/-- C7: every run of storeFile whose read stream ends exactly once sends
exactly one CREATE_CLOSE, and its argument mapping carries the device id,
file id and storage path of the CREATE_OPEN response unchanged, together
with the original key and storage class. -/
theorem storeFile_close_echoes_identifiers_once :
    ∀ (key cls : String) (r : OpenResponse) (tr : List UEvent),
      countStreamEnd tr = 1 →
      closeArgsSent (urun key cls r uinit tr).actions =
        [createCloseArgs key cls r] ∧
      (createCloseArgs key cls r).devid = r.devid ∧
      (createCloseArgs key cls r).fid = r.fid ∧
      (createCloseArgs key cls r).path = r.path ∧
      (createCloseArgs key cls r).key = key ∧
      (createCloseArgs key cls r).cls = cls := by
  intro key cls r tr h
  refine ⟨?_, rfl, rfl, rfl, rfl, rfl⟩
  rw [urun_closeArgs key cls r tr uinit, h]
  simp [uinit, closeArgsSent]

/-- C7 witness: a run with one stream end (and an ignored PUT answer)
sends exactly the echoed close arguments once. -/
theorem storeFile_close_echoes_identifiers_once_witness :
    closeArgsSent (urun "key1" "classA" ⟨"9", "77", "path9"⟩ uinit
        [.streamEnd, .putAck]).actions =
      [createCloseArgs "key1" "classA" ⟨"9", "77", "path9"⟩] :=
  (storeFile_close_echoes_identifiers_once "key1" "classA"
      ⟨"9", "77", "path9"⟩ [.streamEnd, .putAck] (by decide)).1
